import Mathlib

/-
Verification of the pulsar asynchronous redis client
(`pulsar/apps/redis/__init__.py`).

The client installs `_authenticate` as a `pre_request` hook.  On a freshly
acquired connection (at most one processed exchange) the hook injects an
AUTH request and then a SELECT request ahead of the caller's command, each
follow-up step being registered as the `post_request` continuation of the
previous step.  We embed this chain as a trace of events: dispatching a
request with a `post_request` continuation contributes a `dispatch` event,
then the request's `postRequest` event, then the continuation's own trace.
This reflects that each continuation runs only when the previous request
fires its `post_request` event.

Collaborators of the client that live elsewhere in pulsar (`multi_async`,
`parse_connection_string`, `Connection.set_consumer`, the pool's
`response` exchange primitive) are modelled at their interface boundary;
their definitions say so in their doc comments.
-/

namespace PulsarRedis

/-- Embedding of the `connection_info` namedtuple
`(address, db, password, timeout)`.  The database index is a `Nat`
(Python falsy exactly when it is `0`); the password is an optional string
(Python falsy when `None` or empty). -/
structure ConnectionInfo where
  address : String
  db : Nat
  password : Option String
  timeout : Nat
  deriving DecidableEq, Repr

/-- Python truthiness of the `password` field: `None` and the empty string
are falsy, every other string is truthy. -/
def pwTruthy : Option String → Bool
  | none => false
  | some s => decide (s ≠ "")

/-- The commands the redis client can put on the wire during one exchange:
the injected AUTH and SELECT setup commands and the caller's original
command. -/
inductive Cmd where
  | auth (password : String)
  | select (db : Nat)
  | original
  deriving DecidableEq, Repr

/-- Events observable on one connection: a command being dispatched, and a
dispatched command firing its `post_request` event. -/
inductive Ev where
  | dispatch (c : Cmd)
  | postRequest (c : Cmd)
  deriving DecidableEq, Repr

/-- Embedding of `self.request(client, name, args, opts,
release_connection=False, post_request=k, response=response)` inside the
setup chain: the command is dispatched, its `post_request` event fires
once the server answers, and only then does the registered continuation
`k` run. -/
def dispatchWith (c : Cmd) (k : List Ev) : List Ev :=
  Ev.dispatch c :: Ev.postRequest c :: k

/-- Embedding of `_continue(request, response)`: it chains a fresh
consumer onto the connection and forwards the caller's original request
through `request.connection_pool.response(request, response, False)`. -/
def continueTrace : List Ev :=
  [Ev.dispatch Cmd.original]

/-- Embedding of `_change_db(request, response)`: if the descriptor's
database index is truthy, dispatch SELECT with `_continue` registered as
its `post_request` continuation; otherwise fall through to `_continue`
directly. -/
def change_db (info : ConnectionInfo) : List Ev :=
  if info.db ≠ 0 then
    dispatchWith (Cmd.select info.db) continueTrace
  else
    continueTrace

/-- Result of the `pre_request` hook `_authenticate`: either the hook
returns the response object it was given unchanged (no setup injected and
the caller's command proceeds normally), or it starts a setup chain whose
event trace is recorded. -/
inductive HookResult where
  | original
  | chained (trace : List Ev)
  deriving DecidableEq, Repr

/-- Embedding of `_authenticate(self, response)`.  The branch structure
mirrors the source: the chain runs only when
`response._connection.processed <= 1`; a truthy password dispatches AUTH
with `_change_db` as its `post_request` continuation; otherwise a truthy
database index goes straight to `_change_db(None, response)`; otherwise
the original response is returned unchanged. -/
def _authenticate (info : ConnectionInfo) (processed : Nat) : HookResult :=
  if processed ≤ 1 then
    if pwTruthy info.password then
      HookResult.chained
        (dispatchWith (Cmd.auth (info.password.getD "")) (change_db info))
    else if info.db ≠ 0 then
      HookResult.chained (change_db info)
    else
      HookResult.original
  else
    HookResult.original

/-- The full event trace seen on the connection for one caller command:
when the hook returns the original response unchanged, the caller's
command alone is dispatched through the normal path; when the hook starts
a setup chain, the chain's trace is what reaches the wire. -/
def wireTrace (info : ConnectionInfo) (processed : Nat) : List Ev :=
  match _authenticate info processed with
  | HookResult.original => [Ev.dispatch Cmd.original]
  | HookResult.chained t => t

/-
Pipeline submission (`request_pipeline`).  A pipeline entry is a pair of
the positional argument tuple and the keyword-option mapping, matching the
`((args...), opts)` tuples on `pipeline.command_stack`; the transaction
sentinels in the source are the entries with argument tuple `(MULTI,)`
and `(EXEC,)` and an empty option mapping.
-/

/-- One entry of a pipeline's command stack: the argument tuple and the
option mapping. -/
abbrev Entry := List String × List (String × String)

/-- The MULTI transaction sentinel entry. -/
def multiEntry : Entry := (["MULTI"], [])

/-- The EXEC transaction sentinel entry. -/
def execEntry : Entry := (["EXEC"], [])

/-- Embedding of a `Pipeline` as `request_pipeline` consumes it: its
frozen command stack, its transaction flag and whether its session wants
the full response. -/
structure Pipeline where
  command_stack : List Entry
  transaction : Bool
  full_response : Bool
  deriving DecidableEq, Repr

/-- Outcome of `request_pipeline`: `empty` means the empty tuple was
returned before any `Request` was built, any response consumer created or
any connection acquired; `sent stack full` means a `Request` carrying
`stack` was built and submitted, with `full` recording whether the handle
itself or its `on_finished` future is handed back. -/
inductive PipelineResult where
  | empty
  | sent (stack : List Entry) (full : Bool)
  deriving DecidableEq, Repr

/-- Embedding of `request_pipeline(self, pipeline, raise_on_error=True)`:
an empty command stack short-circuits to the empty tuple; a transactional
pipeline has its stack bracketed as
`list(chain([MULTI], commands, [EXEC]))`; otherwise the stack is
submitted unchanged. -/
def request_pipeline (p : Pipeline) : PipelineResult :=
  if p.command_stack = [] then
    PipelineResult.empty
  else if p.transaction then
    PipelineResult.sent (multiEntry :: (p.command_stack ++ [execEntry]))
      p.full_response
  else
    PipelineResult.sent p.command_stack p.full_response

/-
Script loading (`execute_script`).  The source dispatches one
`script_load` per script to load — none of them waiting on another — and
hands the list of in-flight results to `multi_async`, registering the
callback on the aggregate; with nothing to load it invokes the callback
immediately.  `multi_async` itself lives in pulsar's async core, outside
this file's sources.
-/

/-- Modelled from the spec: pulsar's `multi_async` aggregate over a list
of in-flight results (the function itself is not under the sources shown
here).  The aggregate completes only when every component has completed,
and fails — surfacing a failing component's error — as soon as any
component has failed. -/
def multi_async : List (Except String Nat) → Except String (List Nat)
  | [] => Except.ok []
  | Except.error e :: _ => Except.error e
  | Except.ok v :: rest =>
    match multi_async rest with
    | Except.ok vs => Except.ok (v :: vs)
    | Except.error e => Except.error e

/-- Outcome of `execute_script`: the `script_load` commands dispatched (in
loop order, one per script name) and the aggregate result handed to the
caller — the callback's result when every upload succeeded, the upload
failure otherwise. -/
structure ScriptResult where
  dispatched : List String
  outcome : Except String Nat
  deriving Repr

/-- Embedding of `execute_script(self, client, to_load, callback)`: with a
non-empty `to_load` every script is dispatched through
`client.script_load` before the aggregate is formed, and `callback` is
registered on `multi_async` over all the results; with an empty `to_load`
the callback is invoked directly.  `load` stands for the in-flight result
of `client.script_load` for each script name; the model discards the
aggregate's list of values, which the source's callback ignores. -/
def execute_script (to_load : List String)
    (load : String → Except String Nat)
    (callback : Unit → Except String Nat) : ScriptResult :=
  if to_load = [] then
    ScriptResult.mk [] (callback ())
  else
    ScriptResult.mk to_load
      (match multi_async (to_load.map load) with
       | Except.ok _ => callback ()
       | Except.error e => Except.error e)

/-
Client construction (`from_connection_string`).  The source parses the
connection string through `parse_connection_string` (pulsar.utils.internet,
outside the sources shown here), accepts only the scheme `redis`, merges
the explicitly passed keyword arguments into the parsed parameters with
`params.update(kw)`, and builds the client; any other scheme raises
`ValueError` before anything is constructed.
-/

/-- Modelled from the spec: the output of `parse_connection_string` on a
connection string `scheme://host:port?db=N&password=P&timeout=T` — the
scheme, the address and the query parameters as a key-value mapping. -/
structure ParsedConnectionString where
  scheme : String
  address : String × Nat
  params : List (String × String)
  deriving DecidableEq, Repr

/-- Lookup in a key-value mapping: the value at the first occurrence of
the key, `none` when the key is absent. -/
def lookup : List (String × String) → String → Option String
  | [], _ => none
  | (k1, v1) :: rest, k => if k1 = k then some v1 else lookup rest k

/-- One assignment `d[k] = v` on a Python dict modelled as a key-value
list: the first binding of `k` is overwritten in place, a missing key is
appended at the end. -/
def dict_set (d : List (String × String)) (k v : String) :
    List (String × String) :=
  match d with
  | [] => [(k, v)]
  | (k1, v1) :: rest =>
    if k1 = k then (k1, v) :: rest else (k1, v1) :: dict_set rest k v

/-- Python's `d.update(kw)`: every binding of `kw` is assigned into `d` in
order, overwriting existing keys. -/
def dict_update : List (String × String) → List (String × String) →
    List (String × String)
  | d, [] => d
  | d, (k, v) :: rest => dict_update (dict_set d k v) rest

/-- The client value `from_connection_string` builds on success: the
embedding keeps the address and the merged parameter mapping handed to
`self.redis(address, **params)` (the `Redis` wrapper class itself comes
from the optional client module outside the sources shown here). -/
structure RedisModel where
  address : String × Nat
  params : List (String × String)
  deriving DecidableEq, Repr

/-- Embedding of `self.redis(address, **params)` at the boundary the
claims need: the constructed client records the address and the keyword
parameters it was given. -/
def redis (address : String × Nat) (params : List (String × String)) :
    RedisModel :=
  RedisModel.mk address params

/-- Embedding of `from_connection_string(self, connection_string, **kw)`:
only the scheme `redis` is accepted; the explicit keyword arguments are
merged into the parsed parameters by `params.update(kw)` and the client
is built from the result; any other scheme raises `ValueError` with the
source's message and no client is constructed. -/
def from_connection_string (p : ParsedConnectionString)
    (kw : List (String × String)) : Except String RedisModel :=
  if p.scheme = "redis" then
    Except.ok (redis p.address (dict_update p.params kw))
  else
    Except.error ("Use \"redis\" as connection string schema")

/-
Single-command submission (`request`).  The source builds a `Request`,
hands it to the pool's exchange primitive `self.response(request,
response, new_connection)` and then branches on
`resp is not response and not client.full_response`: only when the
consumer coming back is a different object from the passed-in one AND the
client wants the terse shape does it return the `on_finished` future with
a callback extracting `r.result`; otherwise it returns the consumer
itself.  The exchange primitive lives in pulsar's client core, outside
the sources shown here; the embedding abstracts it by the consumer it
returns, identified by `id`, with `passed` the identity of the response
argument (`none` for the default `response=None`).
-/

/-- A response consumer handle as `request` observes it: its object
identity and the result it resolves to. -/
structure Handle where
  id : Nat
  result : Int
  deriving DecidableEq, Repr

/-- What `request` hands back: the `on_finished` future carrying the
extracted `handle.result` value, or the handle itself. -/
inductive RequestReturn where
  | futureResult (value : Int)
  | handle (h : Handle)
  deriving DecidableEq, Repr

/-- Embedding of the tail of `request(self, client, command_name, args,
...)`: `resp` is the consumer returned by the exchange primitive and
`passed` identifies the `response` argument.  The branch mirrors the
source: `if resp is not response and not client.full_response` return the
`on_finished` future resolving to `resp.result`, else return `resp`. -/
def request (full_response : Bool) (passed : Option Nat) (resp : Handle) :
    RequestReturn :=
  if passed ≠ some resp.id ∧ full_response = false then
    RequestReturn.futureResult resp.result
  else
    RequestReturn.handle resp

/-
Consumer chaining (`_chain_response`).  Each setup-chain step that
splices a fresh consumer onto the connection executes, in order:
`connection.set_consumer(None)`, `connection.set_consumer(response)`,
`response.chain_event(prev_response, post_request)`.
-/

/-- A connection as `_chain_response` touches it: the single response
consumer currently attached, identified by number, `none` when detached.
The type makes the one-consumer invariant structural — a connection can
never hold two consumers. -/
structure Conn where
  consumer : Option Nat
  deriving DecidableEq, Repr

/-- Modelled from the spec: `Connection.set_consumer(handler)` (pulsar's
connection class, outside the sources shown here) installs `handler` as
the connection's single response consumer; `None` detaches the current
one. -/
def set_consumer (c : Conn) (handler : Option Nat) : Conn :=
  { c with consumer := handler }

/-- What one `_chain_response` call produces: the final connection state,
the consumer attached after each successive `set_consumer` call, the
identity of the fresh consumer built by `build_consumer`, and the
`chain_event` registration — which previous response the fresh consumer
is chained to and on which event. -/
structure ChainResult where
  conn : Conn
  consumerStates : List (Option Nat)
  newConsumer : Nat
  chainedAfter : Nat × String
  deriving DecidableEq, Repr

/-- Embedding of `_chain_response(self, prev_response)`: build a fresh
consumer, detach the connection's current consumer, attach the fresh one,
and register it to fire after `prev_response`'s `post_request` event.
`fresh` identifies the consumer returned by `build_consumer`. -/
def _chain_response (conn : Conn) (prevResponse : Nat) (fresh : Nat) :
    ChainResult :=
  let c1 := set_consumer conn none
  let c2 := set_consumer c1 (some fresh)
  ChainResult.mk c2 [c1.consumer, c2.consumer] fresh
    (prevResponse, "post_request")

end PulsarRedis

namespace PulsarRedis

/-- C1: with a truthy password on the descriptor and a freshly acquired
connection (`processed ≤ 1`), the events on the connection are: AUTH
dispatched first, then — only after AUTH's `post_request` event — SELECT
iff the database index is non-default, then — only after the previous
step's `post_request` event — the caller's original command. -/
theorem C1_fresh_connection_auth_select_order
    (info : ConnectionInfo) (processed : Nat) (pw : String)
    (hpw : info.password = some pw) (hne : pw ≠ "")
    (hfresh : processed ≤ 1) :
    wireTrace info processed =
      Ev.dispatch (Cmd.auth pw) :: Ev.postRequest (Cmd.auth pw) ::
        (if info.db ≠ 0 then
          Ev.dispatch (Cmd.select info.db) ::
            Ev.postRequest (Cmd.select info.db) :: [Ev.dispatch Cmd.original]
        else
          [Ev.dispatch Cmd.original]) := by
  unfold wireTrace _authenticate
  rw [if_pos hfresh, hpw]
  simp [pwTruthy, hne, change_db, dispatchWith, continueTrace]

/-- Witness for C1 at the concrete descriptor
`(address h, db 3, password x, timeout 0)` and `processed = 1`. -/
theorem C1_fresh_connection_auth_select_order_witness :
    (ConnectionInfo.mk "h" 3 (some "x") 0).password = some "x" ∧
      "x" ≠ "" ∧ (1 : Nat) ≤ 1 ∧
      wireTrace (ConnectionInfo.mk "h" 3 (some "x") 0) 1 =
        Ev.dispatch (Cmd.auth "x") :: Ev.postRequest (Cmd.auth "x") ::
          (if (ConnectionInfo.mk "h" 3 (some "x") 0).db ≠ 0 then
            Ev.dispatch (Cmd.select (ConnectionInfo.mk "h" 3 (some "x") 0).db) ::
              Ev.postRequest (Cmd.select (ConnectionInfo.mk "h" 3 (some "x") 0).db) ::
                [Ev.dispatch Cmd.original]
          else
            [Ev.dispatch Cmd.original]) :=
  ⟨rfl, by decide, by decide,
    C1_fresh_connection_auth_select_order (ConnectionInfo.mk "h" 3 (some "x") 0)
      1 "x" rfl (by decide) (by decide)⟩

/-- C2: on a connection with more than one processed exchange the
`pre_request` hook returns the original response unchanged and neither
AUTH nor SELECT is dispatched, whatever the descriptor holds: only the
caller's command reaches the wire. -/
theorem C2_seasoned_connection_no_setup
    (info : ConnectionInfo) (processed : Nat) (h : 1 < processed) :
    _authenticate info processed = HookResult.original ∧
      wireTrace info processed = [Ev.dispatch Cmd.original] := by
  have hnot : ¬ processed ≤ 1 := Nat.not_le.mpr h
  constructor
  · unfold _authenticate
    rw [if_neg hnot]
  · unfold wireTrace _authenticate
    rw [if_neg hnot]

/-- Witness for C2 at `processed = 5` with a descriptor carrying both a
password and a non-default database. -/
theorem C2_seasoned_connection_no_setup_witness :
    (1 : Nat) < 5 ∧
      (_authenticate (ConnectionInfo.mk "h" 3 (some "x") 0) 5 =
          HookResult.original ∧
        wireTrace (ConnectionInfo.mk "h" 3 (some "x") 0) 5 =
          [Ev.dispatch Cmd.original]) :=
  ⟨by decide,
    C2_seasoned_connection_no_setup (ConnectionInfo.mk "h" 3 (some "x") 0) 5
      (by decide)⟩

/-- C5: with a falsy password and the default database, a command on a
fresh connection injects nothing: the hook returns the original response
unchanged and exactly the caller's command is dispatched. -/
theorem C5_no_credentials_no_setup
    (info : ConnectionInfo) (processed : Nat)
    (hpw : pwTruthy info.password = false) (hdb : info.db = 0)
    (hfresh : processed ≤ 1) :
    _authenticate info processed = HookResult.original ∧
      wireTrace info processed = [Ev.dispatch Cmd.original] := by
  constructor
  · unfold _authenticate
    rw [if_pos hfresh, hpw]
    simp [hdb]
  · unfold wireTrace _authenticate
    rw [if_pos hfresh, hpw]
    simp [hdb]

/-- Witness for C5 at the concrete descriptor with no password and
database 0, on a connection with `processed = 0`. -/
theorem C5_no_credentials_no_setup_witness :
    pwTruthy (ConnectionInfo.mk "h" 0 none 0).password = false ∧
      (ConnectionInfo.mk "h" 0 none 0).db = 0 ∧ (0 : Nat) ≤ 1 ∧
      (_authenticate (ConnectionInfo.mk "h" 0 none 0) 0 =
          HookResult.original ∧
        wireTrace (ConnectionInfo.mk "h" 0 none 0) 0 =
          [Ev.dispatch Cmd.original]) :=
  ⟨rfl, rfl, by decide,
    C5_no_credentials_no_setup (ConnectionInfo.mk "h" 0 none 0) 0 rfl rfl
      (by decide)⟩

/-- C3: a non-empty transactional pipeline with N commands is transmitted
as exactly the stack MULTI, then the N commands in their original order,
then EXEC — N + 2 entries with no reordering. -/
theorem C3_transaction_sentinels
    (p : Pipeline) (htx : p.transaction = true)
    (hne : p.command_stack ≠ []) :
    request_pipeline p =
        PipelineResult.sent (multiEntry :: (p.command_stack ++ [execEntry]))
          p.full_response ∧
      (multiEntry :: (p.command_stack ++ [execEntry])).length =
        p.command_stack.length + 2 := by
  constructor
  · unfold request_pipeline
    rw [if_neg hne, if_pos htx]
  · simp only [List.length_cons, List.length_append, List.length_nil]

/-- Witness for C3 on a two-command transactional pipeline. -/
theorem C3_transaction_sentinels_witness :
    (Pipeline.mk [(["GET", "k"], []), (["SET", "k", "v"], [])] true
          false).transaction = true ∧
      (Pipeline.mk [(["GET", "k"], []), (["SET", "k", "v"], [])] true
          false).command_stack ≠ [] ∧
      (request_pipeline
            (Pipeline.mk [(["GET", "k"], []), (["SET", "k", "v"], [])] true
              false) =
          PipelineResult.sent
            (multiEntry ::
              ((Pipeline.mk [(["GET", "k"], []), (["SET", "k", "v"], [])] true
                    false).command_stack ++ [execEntry]))
            (Pipeline.mk [(["GET", "k"], []), (["SET", "k", "v"], [])] true
                false).full_response ∧
        (multiEntry ::
            ((Pipeline.mk [(["GET", "k"], []), (["SET", "k", "v"], [])] true
                  false).command_stack ++ [execEntry])).length =
          (Pipeline.mk [(["GET", "k"], []), (["SET", "k", "v"], [])] true
              false).command_stack.length + 2) :=
  ⟨rfl, by decide,
    C3_transaction_sentinels
      (Pipeline.mk [(["GET", "k"], []), (["SET", "k", "v"], [])] true false)
      rfl (by decide)⟩

/-- C4: a pipeline whose command stack is empty short-circuits to the
empty result for either value of the transaction flag: no `Request` is
built, no response consumer is created and no connection is acquired. -/
theorem C4_empty_pipeline_short_circuit
    (p : Pipeline) (h : p.command_stack = []) :
    request_pipeline p = PipelineResult.empty := by
  unfold request_pipeline
  rw [if_pos h]

/-- Witness for C4 on an empty transactional pipeline. -/
theorem C4_empty_pipeline_short_circuit_witness :
    (Pipeline.mk [] true true).command_stack = [] ∧
      request_pipeline (Pipeline.mk [] true true) = PipelineResult.empty :=
  ⟨rfl, C4_empty_pipeline_short_circuit (Pipeline.mk [] true true) rfl⟩

/-- When every component of the list has completed successfully, the
`multi_async` aggregate completes successfully. -/
theorem multi_async_all_ok (l : List (Except String Nat))
    (h : ∀ x ∈ l, ∃ v, x = Except.ok v) :
    ∃ vs, multi_async l = Except.ok vs := by
  induction l with
  | nil => exact ⟨[], rfl⟩
  | cons x rest ih =>
    obtain ⟨v, hv⟩ := h x (List.mem_cons_self x rest)
    subst hv
    obtain ⟨vs, hvs⟩ := ih (fun y hy => h y (List.mem_cons_of_mem _ hy))
    refine ⟨v :: vs, ?_⟩
    unfold multi_async
    rw [hvs]

/-- When some component of the list has failed, the `multi_async`
aggregate fails, and the error it surfaces is one of the components'
errors. -/
theorem multi_async_error_of_mem (l : List (Except String Nat)) (e : String)
    (h : Except.error e ∈ l) :
    ∃ e1, multi_async l = Except.error e1 ∧ Except.error e1 ∈ l := by
  induction l with
  | nil => exact absurd h (List.not_mem_nil _)
  | cons x rest ih =>
    cases x with
    | error e2 => exact ⟨e2, rfl, List.mem_cons_self _ _⟩
    | ok v =>
      have hmem : Except.error e ∈ rest := by
        rcases List.mem_cons.mp h with h1 | h1
        · exact Except.noConfusion h1
        · exact h1
      obtain ⟨e1, he1, hm⟩ := ih hmem
      refine ⟨e1, ?_, List.mem_cons_of_mem _ hm⟩
      unfold multi_async
      rw [he1]

/-- C6: on a non-empty set of scripts to load, `execute_script` dispatches
one `script_load` per script — none registered on another's completion —
and the callback's result is the outcome only when every upload
succeeded; as soon as any upload fails, the outcome is one of the
uploads' errors and it does not depend on the callback at all, so the
original script-invoking command is never reached and the failure
surfaces to the caller. -/
theorem C6_script_load_before_callback (to_load : List String)
    (load : String → Except String Nat)
    (callback : Unit → Except String Nat) (h : to_load ≠ []) :
    (execute_script to_load load callback).dispatched = to_load ∧
      ((∀ n ∈ to_load, ∃ v, load n = Except.ok v) →
        (execute_script to_load load callback).outcome = callback ()) ∧
      (∀ n ∈ to_load, ∀ e, load n = Except.error e →
        (∃ e1,
          (execute_script to_load load callback).outcome = Except.error e1 ∧
            ∃ m ∈ to_load, load m = Except.error e1) ∧
          ∀ cb2, (execute_script to_load load cb2).outcome =
            (execute_script to_load load callback).outcome) := by
  refine ⟨?_, ?_, ?_⟩
  · unfold execute_script
    rw [if_neg h]
  · intro hall
    have hall2 : ∀ x ∈ to_load.map load, ∃ v, x = Except.ok v := by
      intro x hx
      obtain ⟨n, hn, hxn⟩ := List.mem_map.mp hx
      obtain ⟨v, hv⟩ := hall n hn
      exact ⟨v, by rw [← hxn, hv]⟩
    obtain ⟨vs, hvs⟩ := multi_async_all_ok (to_load.map load) hall2
    unfold execute_script
    rw [if_neg h]
    simp [hvs]
  · intro n hn e he
    have hmem : Except.error e ∈ to_load.map load := by
      rw [← he]
      exact List.mem_map_of_mem load hn
    obtain ⟨e1, he1, hm⟩ := multi_async_error_of_mem (to_load.map load) e hmem
    obtain ⟨m, hm1, hm2⟩ := List.mem_map.mp hm
    constructor
    · refine ⟨e1, ?_, m, hm1, hm2⟩
      unfold execute_script
      rw [if_neg h]
      simp [he1]
    · intro cb2
      unfold execute_script
      rw [if_neg h, if_neg h]
      simp [he1]

/-- Witness for C6 on two scripts of which the second upload fails. -/
theorem C6_script_load_before_callback_witness :
    (["a", "b"] : List String) ≠ [] ∧
      ((execute_script ["a", "b"]
            (fun n => if n = "a" then Except.ok 1 else Except.error ("boom"))
            (fun _ => Except.ok 0)).dispatched = ["a", "b"] ∧
        ((∀ n ∈ (["a", "b"] : List String), ∃ v,
            (fun n => if n = "a" then Except.ok 1 else Except.error ("boom")) n =
              Except.ok v) →
          (execute_script ["a", "b"]
              (fun n => if n = "a" then Except.ok 1 else Except.error ("boom"))
              (fun _ => Except.ok 0)).outcome = (fun _ => Except.ok 0) ()) ∧
        (∀ n ∈ (["a", "b"] : List String), ∀ e,
          (fun n => if n = "a" then Except.ok 1 else Except.error ("boom")) n =
              Except.error e →
          (∃ e1,
            (execute_script ["a", "b"]
                (fun n => if n = "a" then Except.ok 1 else Except.error ("boom"))
                (fun _ => Except.ok 0)).outcome = Except.error e1 ∧
              ∃ m ∈ (["a", "b"] : List String),
                (fun n => if n = "a" then Except.ok 1 else Except.error ("boom"))
                    m = Except.error e1) ∧
            ∀ cb2, (execute_script ["a", "b"]
                (fun n => if n = "a" then Except.ok 1 else Except.error ("boom"))
                cb2).outcome =
              (execute_script ["a", "b"]
                  (fun n => if n = "a" then Except.ok 1 else Except.error ("boom"))
                  (fun _ => Except.ok 0)).outcome)) :=
  ⟨by decide,
    C6_script_load_before_callback ["a", "b"]
      (fun n => if n = "a" then Except.ok 1 else Except.error ("boom"))
      (fun _ => Except.ok 0) (by decide)⟩

/-- C7: `from_connection_string` raises `ValueError` with the source's
message for every parsed scheme other than `redis` — constructing no
client — and for the scheme `redis` raises nothing and returns a
client. -/
theorem C7_scheme_gate (p : ParsedConnectionString)
    (kw : List (String × String)) :
    (p.scheme ≠ "redis" →
      from_connection_string p kw =
        Except.error ("Use \"redis\" as connection string schema")) ∧
      (p.scheme = "redis" →
        ∃ c, from_connection_string p kw = Except.ok c) := by
  constructor
  · intro h
    unfold from_connection_string
    rw [if_neg h]
  · intro h
    refine ⟨redis p.address (dict_update p.params kw), ?_⟩
    unfold from_connection_string
    rw [if_pos h]

/-- Witness for C7 at a rejected `http` scheme and an accepted `redis`
scheme. -/
theorem C7_scheme_gate_witness :
    from_connection_string (ParsedConnectionString.mk "http" ("h", 80) [])
          [] =
        Except.error ("Use \"redis\" as connection string schema") ∧
      ∃ c, from_connection_string
          (ParsedConnectionString.mk "redis" ("h", 6379) []) [] =
        Except.ok c :=
  ⟨(C7_scheme_gate (ParsedConnectionString.mk "http" ("h", 80) []) []).1
      (by decide),
    (C7_scheme_gate (ParsedConnectionString.mk "redis" ("h", 6379) []) []).2
      rfl⟩

/-- C8 counterexample: a call with `full_response = false` in which the
exchange primitive hands back the very response object that was passed in
(`passed = some 5`, the handle's identity): the source's guard
`resp is not response` fails, so the handle itself is returned — not the
`on_finished` future the claim promises for every `full_response = false`
call. -/
theorem C8_reused_response_returns_handle :
    request false (some 5) (Handle.mk 5 7) =
      RequestReturn.handle (Handle.mk 5 7) := by decide

/-- C8 (amended): when `full_response` is false AND the consumer returned
by the exchange primitive is not the passed-in response object, `request`
returns the `on_finished` future resolving to the handle's result; when
the client wants the full response, or when the exchange primitive
returned the passed-in response itself (the chained-setup path), the
handle itself is returned. -/
theorem C8_request_return_shape (full_response : Bool) (passed : Option Nat)
    (resp : Handle) :
    (passed ≠ some resp.id → full_response = false →
      request full_response passed resp =
        RequestReturn.futureResult resp.result) ∧
      (full_response = true →
        request full_response passed resp = RequestReturn.handle resp) ∧
      (passed = some resp.id →
        request full_response passed resp = RequestReturn.handle resp) := by
  refine ⟨?_, ?_, ?_⟩
  · intro h1 h2
    unfold request
    rw [if_pos ⟨h1, h2⟩]
  · intro h
    subst h
    unfold request
    rw [if_neg]
    rintro ⟨-, h2⟩
    exact Bool.noConfusion h2
  · intro h
    unfold request
    rw [if_neg]
    rintro ⟨h1, -⟩
    exact h1 h

/-- Witness for C8 (amended) at a fresh consumer (`passed = none`,
matching the default `response=None`) and a terse client. -/
theorem C8_request_return_shape_witness :
    ((none : Option Nat) ≠ some (Handle.mk 5 7).id ∧ false = false) ∧
      request false none (Handle.mk 5 7) =
        RequestReturn.futureResult (Handle.mk 5 7).result :=
  ⟨⟨by decide, rfl⟩,
    (C8_request_return_shape false none (Handle.mk 5 7)).1 (by decide) rfl⟩

/-- C9: every `_chain_response` call first detaches the connection's
current consumer (`set_consumer(None)`), then attaches exactly the one
fresh consumer, and registers that consumer to fire after the previous
response's `post_request` event — so the successive consumer states are
detached, then the fresh consumer, and at no instant are two consumers
attached (the connection holds at most one by construction). -/
theorem C9_chain_response_single_consumer (conn : Conn) (prev fresh : Nat) :
    (_chain_response conn prev fresh).consumerStates = [none, some fresh] ∧
      (_chain_response conn prev fresh).conn.consumer = some fresh ∧
      (_chain_response conn prev fresh).chainedAfter =
        (prev, "post_request") :=
  ⟨rfl, rfl, rfl⟩

/-- Assigning key `k` in a dict and looking `k` up yields the assigned
value. -/
theorem lookup_dict_set_self (d : List (String × String)) (k v : String) :
    lookup (dict_set d k v) k = some v := by
  induction d with
  | nil => simp [dict_set, lookup]
  | cons q rest ih =>
    obtain ⟨k1, v1⟩ := q
    by_cases h : k1 = k
    · simp [dict_set, h, lookup]
    · simp [dict_set, h, lookup, ih]

/-- Assigning key `k` in a dict leaves every other key's lookup
unchanged. -/
theorem lookup_dict_set_ne (d : List (String × String)) (k v k2 : String)
    (h : k ≠ k2) : lookup (dict_set d k v) k2 = lookup d k2 := by
  induction d with
  | nil => simp [dict_set, lookup, h]
  | cons q rest ih =>
    obtain ⟨k1, v1⟩ := q
    by_cases h1 : k1 = k
    · subst h1
      simp [dict_set, lookup, h]
    · simp [dict_set, h1, lookup, ih]

/-- A key absent from a dict's key list looks up to `none`. -/
theorem lookup_eq_none_of_not_mem (d : List (String × String)) (k : String)
    (h : k ∉ d.map Prod.fst) : lookup d k = none := by
  induction d with
  | nil => rfl
  | cons q rest ih =>
    obtain ⟨k1, v1⟩ := q
    simp only [List.map_cons, List.mem_cons] at h
    push_neg at h
    have h1 : k1 ≠ k := Ne.symm h.1
    simp [lookup, h1, ih h.2]

/-- A key absent from the update mapping is untouched by `dict_update`:
its lookup in the merged dict equals its lookup in the original dict. -/
theorem lookup_dict_update_none (kw : List (String × String)) (k : String)
    (h : lookup kw k = none) :
    ∀ d, lookup (dict_update d kw) k = lookup d k := by
  induction kw with
  | nil => intro d; rfl
  | cons q rest ih =>
    obtain ⟨k1, v1⟩ := q
    intro d
    have hk1 : k1 ≠ k := by
      intro he
      simp [lookup, he] at h
    have hrest : lookup rest k = none := by
      simpa [lookup, hk1] using h
    simp only [dict_update]
    rw [ih hrest (dict_set d k1 v1)]
    exact lookup_dict_set_ne d k1 v1 k hk1

/-- A key present in a duplicate-free update mapping wins in
`dict_update`: its lookup in the merged dict is the update's value,
whatever the original dict held. -/
theorem lookup_dict_update_some (kw : List (String × String)) (k v : String)
    (hnd : (kw.map Prod.fst).Nodup) (h : lookup kw k = some v) :
    ∀ d, lookup (dict_update d kw) k = some v := by
  induction kw with
  | nil => intro d; exact Option.noConfusion h
  | cons q rest ih =>
    obtain ⟨k1, v1⟩ := q
    simp only [List.map_cons, List.nodup_cons] at hnd
    intro d
    by_cases hk : k1 = k
    · subst hk
      have hv : v1 = v := by simpa [lookup] using h
      subst hv
      have hrest : lookup rest k1 = none :=
        lookup_eq_none_of_not_mem rest k1 hnd.1
      simp only [dict_update]
      rw [lookup_dict_update_none rest k1 hrest (dict_set d k1 v1)]
      exact lookup_dict_set_self d k1 v1
    · have hrest : lookup rest k = some v := by
        simpa [lookup, hk] using h
      simp only [dict_update]
      exact ih hnd.2 hrest (dict_set d k1 v1)

/-- C10: on the accepted `redis` scheme the explicit keyword arguments
are merged (`params.update(kw)`) into the parsed parameters before the
client is built, with an explicit keyword argument winning whenever the
connection string supplies the same key, and keys the keyword arguments
do not mention keeping their parsed values. -/
theorem C10_kw_precedence (p : ParsedConnectionString)
    (kw : List (String × String)) (hs : p.scheme = "redis")
    (hnd : (kw.map Prod.fst).Nodup) :
    from_connection_string p kw =
        Except.ok (redis p.address (dict_update p.params kw)) ∧
      (∀ k v, lookup kw k = some v →
        lookup (dict_update p.params kw) k = some v) ∧
      (∀ k, lookup kw k = none →
        lookup (dict_update p.params kw) k = lookup p.params k) := by
  refine ⟨?_, ?_, ?_⟩
  · unfold from_connection_string
    rw [if_pos hs]
  · intro k v h
    exact lookup_dict_update_some kw k v hnd h p.params
  · intro k h
    exact lookup_dict_update_none kw k h p.params

/-- Witness for C10: an explicit `db=7` overrides the connection string's
`db=1` while the string's `password` survives. -/
theorem C10_kw_precedence_witness :
    (ParsedConnectionString.mk "redis" ("h", 6379)
          [("db", "1"), ("password", "s")]).scheme = "redis" ∧
      ((([("db", "7")] : List (String × String)).map Prod.fst).Nodup ∧
        (from_connection_string
            (ParsedConnectionString.mk "redis" ("h", 6379)
              [("db", "1"), ("password", "s")]) [("db", "7")] =
            Except.ok (redis ("h", 6379)
              (dict_update [("db", "1"), ("password", "s")] [("db", "7")])) ∧
          (∀ k v, lookup [("db", "7")] k = some v →
            lookup (dict_update [("db", "1"), ("password", "s")]
                [("db", "7")]) k = some v) ∧
          (∀ k, lookup [("db", "7")] k = none →
            lookup (dict_update [("db", "1"), ("password", "s")]
                [("db", "7")]) k =
              lookup [("db", "1"), ("password", "s")] k))) :=
  ⟨rfl, by decide,
    C10_kw_precedence
      (ParsedConnectionString.mk "redis" ("h", 6379)
        [("db", "1"), ("password", "s")]) [("db", "7")] rfl (by decide)⟩

end PulsarRedis
